import Mathlib

/-!
Shallow embedding of `examples/language_model/chatglm/finetune_generation.py`
(PaddleNLP).  The script is a linear command-line driver: it parses three
argument dataclasses, checks the output directory, selects a dtype, loads and
optionally wraps the pretrained model with prefix-tuning and LoRA adapters,
selects the dataset source and the metric function, builds a trainer and runs
the train / eval / generation steps guarded by flags.  The embedding models
the filesystem and the framework checkpoint probe as an explicit environment,
and records the observable wiring of one run in a `Trace`; the only error the
script itself raises (the ValueError about a non-empty output directory)
becomes the `Except.error` branch of `main`.
-/

namespace FinetuneGeneration

/-- The fields of the `TrainingArguments` dataclass that the script reads
(`output_dir`, `overwrite_output_dir`, `do_train`, `do_eval`,
`resume_from_checkpoint`, `fp16`, `fp16_opt_level`).  Fields the script never
touches are omitted. -/
structure TrainingArguments where
  output_dir : String
  overwrite_output_dir : Bool
  do_train : Bool
  do_eval : Bool
  resume_from_checkpoint : Option String
  fp16 : Bool
  fp16_opt_level : String
deriving DecidableEq

/-- The `ModelArgument` dataclass of the script. -/
structure ModelArgument where
  model_name_or_path : String
  lora : Bool
  lora_rank : Int
  merge_weights : Bool
  prefix_tuning : Bool
  num_prefix_tokens : Int
  prefix_projection : Bool
  do_generation : Bool
  lora_all_linear : Bool
deriving DecidableEq

/-- The `DataArgument` dataclass of the script. -/
structure DataArgument where
  task_name_or_path : String
  src_length : Int
  tgt_length : Int
  num_beams : Int
  generate_num : Int
deriving DecidableEq

/-- The ambient state the script consults: `os.path.isdir`, the length of
`os.listdir`, the framework probe `get_last_checkpoint`, and
`os.path.exists`. -/
structure Env where
  isdir : String → Bool
  listdir_len : String → Nat
  get_last_checkpoint : String → Option String
  path_exists : String → Bool

/-- `os.path.join` for the relative paths the script builds. -/
def pathJoin (a b : String) : String := a ++ "/" ++ b

/-- The `PrefixConfig` the script constructs (its script-chosen fields; the
fields copied from `model.config` belong to the framework checkpoint). -/
structure PrefixConfig where
  num_prefix_tokens : Int
  prefix_projection : Bool
  dtype : String
deriving DecidableEq

/-- The `LoRAConfig` the script constructs. -/
structure LoRAConfig where
  target_modules : List String
  r : Int
  lora_alpha : Int
  merge_weights : Bool
  dtype : String
deriving DecidableEq

/-- The model object handed to the trainer: the bare pretrained
`ChatGLMForConditionalGeneration`, possibly wrapped in
`PrefixModelForCausalLM` and / or `LoRAModel`.  The Bool on a wrapper records
that the corresponding `mark_only_*_as_trainable` call was made. -/
inductive Model where
  | pretrained (name : String) (dtype : String)
  | prefixWrapped (base : Model) (cfg : PrefixConfig) (markedTrainable : Bool)
  | loraWrapped (base : Model) (cfg : LoRAConfig) (markedTrainable : Bool)
deriving DecidableEq

/-- Which dataset loading branch the script took. -/
inductive DatasetSource where
  | localJson (trainPath devPath : String)
  | belleGroup (taskName : String)
deriving DecidableEq

/-- Which example-conversion function the script partially applied. -/
inductive TransFn where
  | convertExample
  | customInstructionConvertExample
deriving DecidableEq

/-- Which `compute_metrics` closure was passed to the trainer. -/
inductive MetricsFn where
  | doGeneration
  | accuracy
deriving DecidableEq

/-- The observable wiring of one successful run of `main`. -/
structure Trace where
  model : Model
  datasetSource : DatasetSource
  transFn : TransFn
  trainMapIsTest : Option Bool
  devMapIsTest : Option Bool
  collatorMaxLength : Int
  metricsFn : MetricsFn
  trainCalled : Option (Option String)
  modelSaved : Bool
  trainMetricsLogged : Bool
  trainMetricsSaved : Bool
  evalRun : Bool
  inferSavedK : Option Int
deriving DecidableEq

/-- The message of the ValueError the script raises. -/
def valueErrorMsg (od : String) : String :=
  "Output directory (" ++ od ++ ") already exists and is not empty. Use --overwrite_output_dir to overcome."

/-- The output-directory check of `main`: when the directory exists, training
is requested and overwriting is not, probe for a checkpoint; raise the
ValueError when none is found and `len(os.listdir(output_dir)) > 1`. -/
def lastCheckpointResult (env : Env) (ta : TrainingArguments) : Except String (Option String) :=
  if env.isdir ta.output_dir && ta.do_train && !ta.overwrite_output_dir then
    if (env.get_last_checkpoint ta.output_dir).isNone &&
        decide (1 < env.listdir_len ta.output_dir) then
      Except.error (valueErrorMsg ta.output_dir)
    else
      Except.ok (env.get_last_checkpoint ta.output_dir)
  else
    Except.ok none

/-- The dtype selection of `main`: start from the framework default and flip
to `"float16"` when `fp16_opt_level == "O2"` and `fp16` are both set. -/
def selectDtype (default_dtype : String) (ta : TrainingArguments) : String :=
  if ta.fp16_opt_level == "O2" then
    if ta.fp16 then "float16" else default_dtype
  else
    default_dtype

/-- The `target_modules` list chosen for the LoRA config. -/
def loraTargetModules (ma : ModelArgument) : List String :=
  if ma.lora_all_linear then
    [".*query_key_value.*", ".*dense.*"]
  else
    [".*query_key_value.*"]

/-- The `PrefixConfig` built by `main` (script-chosen fields). -/
def prefixConfigOf (ma : ModelArgument) (dtype : String) : PrefixConfig :=
  ⟨ma.num_prefix_tokens, ma.prefix_projection, dtype⟩

/-- The `LoRAConfig` built by `main`. -/
def loraConfigOf (ma : ModelArgument) (dtype : String) : LoRAConfig :=
  ⟨loraTargetModules ma, ma.lora_rank, 2 * ma.lora_rank, ma.merge_weights, dtype⟩

/-- The model construction of `main`: load the pretrained model, wrap with
`PrefixModelForCausalLM` when `prefix_tuning` is set, then wrap with
`LoRAModel` when `lora` is set. -/
def buildModel (ma : ModelArgument) (dtype : String) : Model :=
  let base := Model.pretrained ma.model_name_or_path dtype
  let m1 := if ma.prefix_tuning then Model.prefixWrapped base (prefixConfigOf ma dtype) true else base
  if ma.lora then Model.loraWrapped m1 (loraConfigOf ma dtype) true else m1

/-- The dataset branch of `main`: local `train.json` / `dev.json` with
`convert_example` when both exist, otherwise the `"bellegroup"` dataset
with `custom_instruction_convert_example`. -/
def selectDatasetSource (env : Env) (da : DataArgument) : DatasetSource × TransFn :=
  if env.path_exists (pathJoin da.task_name_or_path "train.json") &&
      env.path_exists (pathJoin da.task_name_or_path "dev.json") then
    (DatasetSource.localJson (pathJoin da.task_name_or_path "train.json")
      (pathJoin da.task_name_or_path "dev.json"), TransFn.convertExample)
  else
    (DatasetSource.belleGroup da.task_name_or_path, TransFn.customInstructionConvertExample)

/-- Everything `main` does after the output-directory check, as a function of
the detected checkpoint: model and dataset wiring, trainer construction, and
the flag-guarded train / eval / generation steps. -/
def runWithCheckpoint (env : Env) (ma : ModelArgument) (da : DataArgument)
    (ta : TrainingArguments) (default_dtype : String) (last_checkpoint : Option String) : Trace :=
  let dtype := selectDtype default_dtype ta
  let ds := selectDatasetSource env da
  { model := buildModel ma dtype
    datasetSource := ds.1
    transFn := ds.2
    trainMapIsTest := some false
    devMapIsTest := if ma.do_generation then none else some false
    collatorMaxLength := da.src_length + da.tgt_length
    metricsFn := if ma.do_generation then MetricsFn.doGeneration else MetricsFn.accuracy
    trainCalled := if ta.do_train then some last_checkpoint else none
    modelSaved := ta.do_train
    trainMetricsLogged := ta.do_train
    trainMetricsSaved := ta.do_train
    evalRun := ta.do_eval
    inferSavedK := if 0 < da.generate_num then some da.generate_num else none }

/-- The whole `main`: the output-directory check, then the linear wiring. -/
def main (env : Env) (ma : ModelArgument) (da : DataArgument)
    (ta : TrainingArguments) (default_dtype : String) : Except String Trace :=
  match lastCheckpointResult env ta with
  | Except.error e => Except.error e
  | Except.ok lc => Except.ok (runWithCheckpoint env ma da ta default_dtype lc)

/-- A successful run of `main` is `runWithCheckpoint` at the detected
checkpoint. -/
lemma main_ok_trace {env : Env} {ma : ModelArgument} {da : DataArgument}
    {ta : TrainingArguments} {dd : String} {tr : Trace}
    (h : main env ma da ta dd = Except.ok tr) :
    ∃ lc, lastCheckpointResult env ta = Except.ok lc ∧
      tr = runWithCheckpoint env ma da ta dd lc := by
  unfold main at h
  cases hm : lastCheckpointResult env ta with
  | error e => rw [hm] at h; exact absurd h (by simp)
  | ok lc => rw [hm] at h; exact ⟨lc, rfl, (Except.ok.injEq _ _ ▸ h).symm⟩

/-- Concrete arguments for witnesses: an empty filesystem. -/
def env0 : Env := ⟨fun _ => false, fun _ => 0, fun _ => none, fun _ => false⟩

/-- Concrete `TrainingArguments` with every flag off. -/
def ta0 : TrainingArguments := ⟨"out", false, false, false, none, false, "O1"⟩

/-- Concrete `ModelArgument` with the dataclass defaults. -/
def ma0 : ModelArgument := ⟨"THUDM/chatglm-6b", false, 8, true, false, 64, false, false, false⟩

/-- Concrete `DataArgument` with the dataclass defaults. -/
def da0 : DataArgument := ⟨"./data/", 128, 180, 5, 0⟩

/-- A filesystem where the output directory exists with exactly one entry and
holds no checkpoint. -/
def env1 : Env := ⟨fun s => s == "out", fun _ => 1, fun _ => none, fun _ => false⟩

/-- A filesystem where the output directory exists with two entries and holds
no checkpoint. -/
def env2 : Env := ⟨fun s => s == "out", fun _ => 2, fun _ => none, fun _ => false⟩

/-- A filesystem where the output directory exists with three entries and a
checkpoint is detected inside it. -/
def env3 : Env :=
  ⟨fun s => s == "out", fun _ => 3, fun _ => some "out/checkpoint-100", fun _ => false⟩

/-- `TrainingArguments` requesting training without overwrite. -/
def ta1 : TrainingArguments := ⟨"out", false, true, false, none, false, "O1"⟩

/-- `main` raises an error exactly when `lastCheckpointResult` does. -/
lemma main_error_iff_lcr {env : Env} {ma : ModelArgument} {da : DataArgument}
    {ta : TrainingArguments} {dd : String} {e : String} :
    main env ma da ta dd = Except.error e ↔
      lastCheckpointResult env ta = Except.error e := by
  unfold main
  cases hm : lastCheckpointResult env ta <;> simp

/-- The output-directory check errors exactly when the directory exists,
training is requested, overwriting is not, no checkpoint is found, and the
directory holds more than one entry. -/
lemma lcr_error_iff (env : Env) (ta : TrainingArguments) :
    (∃ e, lastCheckpointResult env ta = Except.error e) ↔
      (env.isdir ta.output_dir = true ∧ ta.do_train = true ∧
       ta.overwrite_output_dir = false ∧
       env.get_last_checkpoint ta.output_dir = none ∧
       1 < env.listdir_len ta.output_dir) := by
  unfold lastCheckpointResult
  split
  next hcond =>
    simp only [Bool.and_eq_true, Bool.not_eq_true'] at hcond
    split
    next hinner =>
      simp only [Bool.and_eq_true, Option.isNone_iff_eq_none, decide_eq_true_eq] at hinner
      constructor
      · intro _
        exact ⟨hcond.1.1, hcond.1.2, hcond.2, hinner.1, hinner.2⟩
      · intro _
        exact ⟨_, rfl⟩
    next hinner =>
      constructor
      · rintro ⟨e, he⟩
        exact Except.noConfusion he
      · rintro ⟨_, _, _, h4, h5⟩
        exact absurd (by simp [h4, h5]) hinner
  next hcond =>
    constructor
    · rintro ⟨e, he⟩
      exact Except.noConfusion he
    · rintro ⟨h1, h2, h3, _, _⟩
      exact absurd (by simp [h1, h2, h3]) hcond

/-- When the output-directory check errors, the message names the output
directory. -/
lemma lcr_error_msg {env : Env} {ta : TrainingArguments} {e : String}
    (h : lastCheckpointResult env ta = Except.error e) :
    e = valueErrorMsg ta.output_dir := by
  unfold lastCheckpointResult at h
  split at h
  · split at h
    · injection h with h
      exact h.symm
    · exact Except.noConfusion h
  · exact Except.noConfusion h

/-- Claim C1, counterexample: the claim asks for the fatal error as soon as
the directory is non-empty, but with exactly one entry (and no checkpoint)
the script proceeds, because the code tests `len(os.listdir(...)) > 1`. -/
theorem C1_counterexample :
    (env1.isdir ta1.output_dir = true ∧ ta1.do_train = true ∧
     ta1.overwrite_output_dir = false ∧
     env1.get_last_checkpoint ta1.output_dir = none ∧
     0 < env1.listdir_len ta1.output_dir) ∧
    ∃ tr, main env1 ma0 da0 ta1 "float32" = Except.ok tr :=
  ⟨⟨by decide, rfl, rfl, rfl, by decide⟩, _, rfl⟩

/-- Claim C1 (amended): with do_train set, no overwrite, no checkpoint found
and the output directory existing with more than one entry, and only then,
`main` raises the fatal error, whose message names the output directory. -/
theorem C1_overwrite_refusal (env : Env) (ma : ModelArgument) (da : DataArgument)
    (ta : TrainingArguments) (dd : String) :
    ((∃ e, main env ma da ta dd = Except.error e) ↔
      (env.isdir ta.output_dir = true ∧ ta.do_train = true ∧
       ta.overwrite_output_dir = false ∧
       env.get_last_checkpoint ta.output_dir = none ∧
       1 < env.listdir_len ta.output_dir)) ∧
    (∀ e, main env ma da ta dd = Except.error e → e = valueErrorMsg ta.output_dir) := by
  constructor
  · constructor
    · rintro ⟨e, he⟩
      exact (lcr_error_iff env ta).1 ⟨e, main_error_iff_lcr.1 he⟩
    · intro hc
      obtain ⟨e, he⟩ := (lcr_error_iff env ta).2 hc
      exact ⟨e, main_error_iff_lcr.2 he⟩
  · intro e he
    exact lcr_error_msg (main_error_iff_lcr.1 he)

/-- Witness for the amended C1: with two entries and no checkpoint the error
is raised. -/
theorem C1_overwrite_refusal_witness :
    ∃ e, main env2 ma0 da0 ta1 "float32" = Except.error e :=
  (C1_overwrite_refusal env2 ma0 da0 ta1 "float32").1.mpr
    ⟨by decide, rfl, rfl, rfl, by decide⟩

/-- Claim C5: a detected checkpoint overrides the overwrite refusal — no
error is raised, and when `resume_from_checkpoint` was not given the trainer
is started from the detected checkpoint. -/
theorem C5_checkpoint_overrides_refusal (env : Env) (ma : ModelArgument)
    (da : DataArgument) (ta : TrainingArguments) (dd : String) (c : String)
    (h1 : ta.do_train = true) (h2 : ta.overwrite_output_dir = false)
    (h3 : env.isdir ta.output_dir = true)
    (h4 : 0 < env.listdir_len ta.output_dir)
    (h5 : env.get_last_checkpoint ta.output_dir = some c) :
    ∃ tr, main env ma da ta dd = Except.ok tr ∧
      (ta.resume_from_checkpoint = none → tr.trainCalled = some (some c)) := by
  have hlcr : lastCheckpointResult env ta = Except.ok (some c) := by
    unfold lastCheckpointResult
    rw [h1, h2, h3, h5]
    simp
  refine ⟨runWithCheckpoint env ma da ta dd (some c), ?_, ?_⟩
  · unfold main
    rw [hlcr]
  · intro _
    simp [runWithCheckpoint, h1]

/-- Witness for C5 at a concrete filesystem holding a checkpoint. -/
theorem C5_checkpoint_overrides_refusal_witness :
    ∃ tr, main env3 ma0 da0 ta1 "float32" = Except.ok tr ∧
      (ta1.resume_from_checkpoint = none →
        tr.trainCalled = some (some "out/checkpoint-100")) :=
  C5_checkpoint_overrides_refusal env3 ma0 da0 ta1 "float32" "out/checkpoint-100"
    rfl rfl (by decide) (by decide) rfl

/-- Claim C10: the collator padding limit is `src_length + tgt_length` for
every value of those arguments, on every successful run. -/
theorem C10_collator_max_length (env : Env) (ma : ModelArgument) (da : DataArgument)
    (ta : TrainingArguments) (dd : String) (tr : Trace)
    (h : main env ma da ta dd = Except.ok tr) :
    tr.collatorMaxLength = da.src_length + da.tgt_length := by
  obtain ⟨lc, _, htr⟩ := main_ok_trace h
  subst htr
  rfl

/-- Witness for C10 at concrete arguments. -/
theorem C10_collator_max_length_witness :
    ∃ tr, main env0 ma0 da0 ta0 "float32" = Except.ok tr ∧
      tr.collatorMaxLength = da0.src_length + da0.tgt_length :=
  ⟨_, rfl, C10_collator_max_length env0 ma0 da0 ta0 "float32" _ rfl⟩

/-- Whether a `PrefixModelForCausalLM` wrapper occurs in the model. -/
def containsPrefixWrap : Model → Bool
  | Model.pretrained _ _ => false
  | Model.prefixWrapped _ _ _ => true
  | Model.loraWrapped base _ _ => containsPrefixWrap base

/-- Whether a `LoRAModel` wrapper occurs in the model. -/
def containsLoraWrap : Model → Bool
  | Model.pretrained _ _ => false
  | Model.prefixWrapped base _ _ => containsLoraWrap base
  | Model.loraWrapped _ _ _ => true

/-- Whether some prefix wrapper had `mark_only_prefix_as_trainable` called. -/
def prefixMarkedTrainable : Model → Bool
  | Model.pretrained _ _ => false
  | Model.prefixWrapped _ _ m => m
  | Model.loraWrapped base _ _ => prefixMarkedTrainable base

/-- Whether some LoRA wrapper had `mark_only_lora_as_trainable` called. -/
def loraMarkedTrainable : Model → Bool
  | Model.pretrained _ _ => false
  | Model.prefixWrapped base _ _ => loraMarkedTrainable base
  | Model.loraWrapped _ _ m => m

/-- Claim C2: the prefix wrapper is present (and marked trainable) iff
`prefix_tuning` is set, the LoRA wrapper iff `lora` is set, and with neither
flag the bare pretrained model reaches the trainer. -/
theorem C2_adapters_flag_controlled (env : Env) (ma : ModelArgument)
    (da : DataArgument) (ta : TrainingArguments) (dd : String) (tr : Trace)
    (h : main env ma da ta dd = Except.ok tr) :
    containsPrefixWrap tr.model = ma.prefix_tuning ∧
    containsLoraWrap tr.model = ma.lora ∧
    (ma.prefix_tuning = true → prefixMarkedTrainable tr.model = true) ∧
    (ma.lora = true → loraMarkedTrainable tr.model = true) ∧
    (ma.prefix_tuning = false → ma.lora = false →
      tr.model = Model.pretrained ma.model_name_or_path (selectDtype dd ta)) := by
  obtain ⟨lc, _, htr⟩ := main_ok_trace h
  subst htr
  cases hp : ma.prefix_tuning <;> cases hl : ma.lora <;>
    simp [runWithCheckpoint, buildModel, hp, hl, containsPrefixWrap, containsLoraWrap,
      prefixMarkedTrainable, loraMarkedTrainable]

/-- Witness for C2 at concrete arguments. -/
theorem C2_adapters_flag_controlled_witness :
    ∃ tr, main env0 ma0 da0 ta0 "float32" = Except.ok tr ∧
      containsPrefixWrap tr.model = ma0.prefix_tuning ∧
      containsLoraWrap tr.model = ma0.lora :=
  ⟨_, rfl,
    (C2_adapters_flag_controlled env0 ma0 da0 ta0 "float32" _ rfl).1,
    (C2_adapters_flag_controlled env0 ma0 da0 ta0 "float32" _ rfl).2.1⟩

/-- Claim C3: the generation metric function is selected iff `do_generation`
is set, otherwise the token-accuracy function is used and the dev dataset is
mapped with `is_test=False`. -/
theorem C3_metric_selection (env : Env) (ma : ModelArgument)
    (da : DataArgument) (ta : TrainingArguments) (dd : String) (tr : Trace)
    (h : main env ma da ta dd = Except.ok tr) :
    (tr.metricsFn = MetricsFn.doGeneration ↔ ma.do_generation = true) ∧
    (ma.do_generation = false →
      tr.metricsFn = MetricsFn.accuracy ∧ tr.devMapIsTest = some false) := by
  obtain ⟨lc, _, htr⟩ := main_ok_trace h
  subst htr
  cases hg : ma.do_generation <;> simp [runWithCheckpoint, hg]

/-- Witness for C3 at concrete arguments. -/
theorem C3_metric_selection_witness :
    ∃ tr, main env0 ma0 da0 ta0 "float32" = Except.ok tr ∧
      (tr.metricsFn = MetricsFn.doGeneration ↔ ma0.do_generation = true) :=
  ⟨_, rfl, (C3_metric_selection env0 ma0 da0 ta0 "float32" _ rfl).1⟩

/-- Claim C4: the local JSON files (with `convert_example`) are used iff both
`train.json` and `dev.json` exist under `task_name_or_path`; otherwise the
`"bellegroup"` dataset (with `custom_instruction_convert_example`). -/
theorem C4_dataset_selection (env : Env) (ma : ModelArgument)
    (da : DataArgument) (ta : TrainingArguments) (dd : String) (tr : Trace)
    (h : main env ma da ta dd = Except.ok tr) :
    (env.path_exists (pathJoin da.task_name_or_path "train.json") = true ∧
     env.path_exists (pathJoin da.task_name_or_path "dev.json") = true →
      tr.datasetSource = DatasetSource.localJson (pathJoin da.task_name_or_path "train.json")
          (pathJoin da.task_name_or_path "dev.json") ∧
      tr.transFn = TransFn.convertExample) ∧
    (env.path_exists (pathJoin da.task_name_or_path "train.json") = false ∨
     env.path_exists (pathJoin da.task_name_or_path "dev.json") = false →
      tr.datasetSource = DatasetSource.belleGroup da.task_name_or_path ∧
      tr.transFn = TransFn.customInstructionConvertExample) := by
  obtain ⟨lc, _, htr⟩ := main_ok_trace h
  subst htr
  constructor
  · rintro ⟨h1, h2⟩
    simp [runWithCheckpoint, selectDatasetSource, h1, h2]
  · rintro (h1 | h2)
    · simp [runWithCheckpoint, selectDatasetSource, h1]
    · simp [runWithCheckpoint, selectDatasetSource, h2]

/-- Witness for C4 at concrete arguments (no local files, so bellegroup). -/
theorem C4_dataset_selection_witness :
    ∃ tr, main env0 ma0 da0 ta0 "float32" = Except.ok tr ∧
      tr.datasetSource = DatasetSource.belleGroup da0.task_name_or_path ∧
      tr.transFn = TransFn.customInstructionConvertExample :=
  ⟨_, rfl, (C4_dataset_selection env0 ma0 da0 ta0 "float32" _ rfl).2 (Or.inl rfl)⟩

/-- Claim C6: model saving and train-metric logging/saving happen iff
`do_train`, evaluation iff `do_eval`, and the generation samples file iff
`generate_num > 0` (over the first `generate_num` dev examples). -/
theorem C6_outputs_flag_gated (env : Env) (ma : ModelArgument)
    (da : DataArgument) (ta : TrainingArguments) (dd : String) (tr : Trace)
    (h : main env ma da ta dd = Except.ok tr) :
    tr.modelSaved = ta.do_train ∧
    tr.trainMetricsLogged = ta.do_train ∧
    tr.trainMetricsSaved = ta.do_train ∧
    (tr.trainCalled ≠ none ↔ ta.do_train = true) ∧
    tr.evalRun = ta.do_eval ∧
    (tr.inferSavedK ≠ none ↔ 0 < da.generate_num) ∧
    (0 < da.generate_num → tr.inferSavedK = some da.generate_num) := by
  obtain ⟨lc, _, htr⟩ := main_ok_trace h
  subst htr
  refine ⟨rfl, rfl, rfl, ?_, rfl, ?_, ?_⟩
  · cases hd : ta.do_train <;> simp [runWithCheckpoint, hd]
  · by_cases hg : 0 < da.generate_num <;> simp [runWithCheckpoint, hg]
  · intro hg
    simp [runWithCheckpoint, hg]

/-- Witness for C6 at concrete arguments. -/
theorem C6_outputs_flag_gated_witness :
    ∃ tr, main env0 ma0 da0 ta0 "float32" = Except.ok tr ∧
      tr.modelSaved = ta0.do_train ∧ tr.evalRun = ta0.do_eval :=
  ⟨_, rfl, (C6_outputs_flag_gated env0 ma0 da0 ta0 "float32" _ rfl).1,
    (C6_outputs_flag_gated env0 ma0 da0 ta0 "float32" _ rfl).2.2.2.2.1⟩

/-- The dtypes the script passes to the framework: the one given to
`from_pretrained` and the one in each adapter config. -/
def modelDtypes : Model → List String
  | Model.pretrained _ d => [d]
  | Model.prefixWrapped base cfg _ => cfg.dtype :: modelDtypes base
  | Model.loraWrapped base cfg _ => cfg.dtype :: modelDtypes base

/-- Claim C7: every dtype handed to the framework is `"float16"` exactly when
`fp16` is set and `fp16_opt_level = "O2"`, and the default dtype otherwise. -/
theorem C7_dtype_selection (env : Env) (ma : ModelArgument)
    (da : DataArgument) (ta : TrainingArguments) (dd : String) (tr : Trace)
    (h : main env ma da ta dd = Except.ok tr) :
    (∀ d ∈ modelDtypes tr.model, d = selectDtype dd ta) ∧
    (ta.fp16 = true ∧ ta.fp16_opt_level = "O2" → selectDtype dd ta = "float16") ∧
    (¬(ta.fp16 = true ∧ ta.fp16_opt_level = "O2") → selectDtype dd ta = dd) := by
  obtain ⟨lc, _, htr⟩ := main_ok_trace h
  subst htr
  refine ⟨?_, ?_, ?_⟩
  · intro d hd
    cases hp : ma.prefix_tuning <;> cases hl : ma.lora <;>
      simp [runWithCheckpoint, buildModel, hp, hl, modelDtypes, prefixConfigOf,
        loraConfigOf] at hd <;>
      simp [hd]
  · rintro ⟨hf, ho⟩
    simp [selectDtype, ho, hf]
  · intro hn
    unfold selectDtype
    by_cases ho : ta.fp16_opt_level = "O2"
    · have hf : ta.fp16 = false := by
        cases hfq : ta.fp16
        · rfl
        · exact absurd ⟨hfq, ho⟩ hn
      simp [ho, hf]
    · simp [ho]

/-- Witness for C7 at concrete arguments. -/
theorem C7_dtype_selection_witness :
    ∃ tr, main env0 ma0 da0 ta0 "float32" = Except.ok tr ∧
      (∀ d ∈ modelDtypes tr.model, d = selectDtype "float32" ta0) :=
  ⟨_, rfl, (C7_dtype_selection env0 ma0 da0 ta0 "float32" _ rfl).1⟩

/-- `ModelArgument` with both adapter flags set. -/
def maBoth : ModelArgument := ⟨"THUDM/chatglm-6b", true, 8, true, true, 64, false, false, false⟩

/-- Claim C9: the two flags are not mutually exclusive — whether `main`
errors does not depend on `ModelArgument` at all, and on success with both
flags the model is the LoRA wrapper around the prefix wrapper around the
pretrained model. -/
theorem C9_both_adapters_compose (env : Env) (ma : ModelArgument)
    (da : DataArgument) (ta : TrainingArguments) (dd : String)
    (hp : ma.prefix_tuning = true) (hl : ma.lora = true) :
    (∀ ma2 tr2, main env ma2 da ta dd = Except.ok tr2 →
      ∃ tr, main env ma da ta dd = Except.ok tr) ∧
    (∀ tr, main env ma da ta dd = Except.ok tr →
      tr.model = Model.loraWrapped
        (Model.prefixWrapped (Model.pretrained ma.model_name_or_path (selectDtype dd ta))
          (prefixConfigOf ma (selectDtype dd ta)) true)
        (loraConfigOf ma (selectDtype dd ta)) true) := by
  constructor
  · intro ma2 tr2 h2
    obtain ⟨lc, hlc, _⟩ := main_ok_trace h2
    refine ⟨runWithCheckpoint env ma da ta dd lc, ?_⟩
    unfold main
    rw [hlc]
  · intro tr h
    obtain ⟨lc, _, htr⟩ := main_ok_trace h
    subst htr
    simp [runWithCheckpoint, buildModel, hp, hl]

/-- Witness for C9: both wrappers applied, prefix inside LoRA. -/
theorem C9_both_adapters_compose_witness :
    ∃ tr, main env0 maBoth da0 ta0 "float32" = Except.ok tr ∧
      tr.model = Model.loraWrapped
        (Model.prefixWrapped (Model.pretrained maBoth.model_name_or_path (selectDtype "float32" ta0))
          (prefixConfigOf maBoth (selectDtype "float32" ta0)) true)
        (loraConfigOf maBoth (selectDtype "float32" ta0)) true :=
  ⟨_, rfl,
    (C9_both_adapters_compose env0 maBoth da0 ta0 "float32" rfl rfl).2 _ rfl⟩

/-- Numpy boolean-mask indexing `xs[mask]`: keep the entries of `xs` whose
mask position is true. -/
def maskFilter (xs : List Int) (mask : List Bool) : List Int :=
  ((xs.zip mask).filter (fun p => p.2)).map Prod.fst

/-- The mask `flattened_labels != -100`. -/
def keepMask (labels : List Int) : List Bool :=
  labels.map (fun l => l != -100)

/-- `sklearn.metrics.accuracy_score`: the fraction of positions where the
prediction equals the label. -/
def accuracy_score (y_true y_pred : List Int) : ℚ :=
  (((y_true.zip y_pred).filter (fun p => p.1 == p.2)).length : ℚ) / (y_true.length : ℚ)

/-- The non-generation `compute_metrics` closure of `main`: flatten the
prediction and label arrays, drop every position whose label is `-100` from
both, and take the accuracy of the rest. -/
def compute_metrics (predictions label_ids : List (List Int)) : ℚ :=
  accuracy_score (maskFilter label_ids.flatten (keepMask label_ids.flatten))
    (maskFilter predictions.flatten (keepMask label_ids.flatten))

/-- Two prediction vectors agree at every position whose label is kept
(label not `-100`); false when lengths differ. -/
def agreeOnKept : List Int → List Int → List Int → Bool
  | [], [], _ => true
  | p :: ps, q :: qs, l :: ls => (l == -100 || p == q) && agreeOnKept ps qs ls
  | _, _, _ => false

lemma maskFilter_nil_mask (xs : List Int) : maskFilter xs [] = [] := by
  simp [maskFilter]

lemma maskFilter_cons (x : Int) (xs : List Int) (b : Bool) (bs : List Bool) :
    maskFilter (x :: xs) (b :: bs) =
      if b then x :: maskFilter xs bs else maskFilter xs bs := by
  cases b <;> simp [maskFilter, List.filter_cons]

lemma keepMask_cons (l : Int) (ls : List Int) :
    keepMask (l :: ls) = (l != -100) :: keepMask ls := rfl

/-- Predictions agreeing on kept positions filter to the same vector. -/
lemma agreeOnKept_maskFilter (ps qs ls : List Int)
    (h : agreeOnKept ps qs ls = true) :
    maskFilter ps (keepMask ls) = maskFilter qs (keepMask ls) := by
  induction ps generalizing qs ls with
  | nil =>
    cases qs with
    | nil => rfl
    | cons q qs => cases ls <;> exact absurd h (by simp [agreeOnKept])
  | cons p ps ih =>
    cases qs with
    | nil => cases ls <;> exact absurd h (by simp [agreeOnKept])
    | cons q qs =>
      cases ls with
      | nil => exact absurd h (by simp [agreeOnKept])
      | cons l ls =>
        simp only [agreeOnKept, Bool.and_eq_true, Bool.or_eq_true, beq_iff_eq] at h
        obtain ⟨hhead, htail⟩ := h
        rw [keepMask_cons, maskFilter_cons, maskFilter_cons]
        by_cases hl : l = -100
        · simp [hl, ih qs ls htail]
        · have hb : (l != -100) = true := by simp [hl]
          have hpq : p = q := hhead.resolve_left hl
          rw [hb, hpq, if_pos rfl, if_pos rfl, ih qs ls htail]

/-- Masking two equally long vectors keeps equally many entries. -/
lemma maskFilter_length_eq (xs ys : List Int) (bs : List Bool)
    (h : xs.length = ys.length) :
    (maskFilter xs bs).length = (maskFilter ys bs).length := by
  induction bs generalizing xs ys with
  | nil => rw [maskFilter_nil_mask, maskFilter_nil_mask]
  | cons b bs ih =>
    cases xs with
    | nil =>
      cases ys with
      | nil => rfl
      | cons y ys => simp at h
    | cons x xs =>
      cases ys with
      | nil => simp at h
      | cons y ys =>
        simp only [List.length_cons, Nat.succ.injEq] at h
        rw [maskFilter_cons, maskFilter_cons]
        cases b <;> simp [ih xs ys h]

/-- No kept label is `-100`. -/
lemma maskFilter_keepMask_not_ignored (ls : List Int) :
    ∀ x ∈ maskFilter ls (keepMask ls), x ≠ -100 := by
  induction ls with
  | nil => simp [maskFilter, keepMask]
  | cons l ls ih =>
    rw [keepMask_cons, maskFilter_cons]
    by_cases hl : l = -100
    · have hb : (l != -100) = false := by simp [hl]
      rw [hb, if_neg (by simp)]
      exact ih
    · have hb : (l != -100) = true := by simp [hl]
      rw [hb, if_pos rfl]
      intro x hx
      rcases List.mem_cons.1 hx with hx | hx
      · exact hx ▸ hl
      · exact ih x hx

/-- Claim C8: `compute_metrics` drops every `-100`-labelled position from
both vectors — the kept labels are never `-100`, the kept predictions and
labels have equal length, and the score does not depend on what the
predictions were at ignored positions. -/
theorem C8_accuracy_ignores_masked (preds preds2 labels : List (List Int))
    (hagree : agreeOnKept preds.flatten preds2.flatten labels.flatten = true)
    (hlen : preds.flatten.length = labels.flatten.length) :
    compute_metrics preds labels = compute_metrics preds2 labels ∧
    (∀ x ∈ maskFilter labels.flatten (keepMask labels.flatten), x ≠ -100) ∧
    (maskFilter preds.flatten (keepMask labels.flatten)).length =
      (maskFilter labels.flatten (keepMask labels.flatten)).length := by
  refine ⟨?_, maskFilter_keepMask_not_ignored _, maskFilter_length_eq _ _ _ hlen⟩
  unfold compute_metrics
  rw [agreeOnKept_maskFilter _ _ _ hagree]

/-- Witness for C8: flipping a prediction under an ignored label leaves the
accuracy untouched. -/
theorem C8_accuracy_ignores_masked_witness :
    compute_metrics [[1, 5]] [[1, -100]] = compute_metrics [[1, 7]] [[1, -100]] ∧
    (∀ x ∈ maskFilter (List.flatten [[1, -100]]) (keepMask (List.flatten [[1, -100]])), x ≠ -100) ∧
    (maskFilter (List.flatten [[(1 : Int), 5]]) (keepMask (List.flatten [[1, -100]]))).length =
      (maskFilter (List.flatten [[(1 : Int), -100]]) (keepMask (List.flatten [[1, -100]]))).length :=
  C8_accuracy_ignores_masked [[1, 5]] [[1, 7]] [[1, -100]] (by decide) (by decide)

end FinetuneGeneration
